import Mathlib

/-!
Shallow embedding of the core of the zeija/finding-mc-server scanner
(src/minecraft_scanner.js, with one helper taken from src/scanmc.js where
noted).  Pure functions are translated directly; stateful code is modelled
by explicit state passing; the random draws consumed by the generators are
passed in as explicit arguments (a draw in the range 0..n-1 is embedded as
an arbitrary natural taken modulo n); JavaScript 32-bit bitwise results are
modelled on Nat with explicit reduction modulo 2^32 (JS reinterprets the
same 32 bits as signed, which none of the verified properties depend on).
-/

set_option linter.unusedVariables false

/-- An IPv4 address as four octets, as produced by splitting the dotted-quad
string of the source on dots.  Octets are naturals; validity (each below
256) is a separate predicate, mirroring isValidIP. -/
structure IPv4 where
  o1 : Nat
  o2 : Nat
  o3 : Nat
  o4 : Nat
deriving DecidableEq, Repr

/-- ipToNumber (src line 364): fold of shifts and adds, with the final
unsigned reinterpretation written as reduction modulo 2^32. -/
def ipToNumber (ip : IPv4) : Nat :=
  (((ip.o1 * 256 + ip.o2) * 256 + ip.o3) * 256 + ip.o4) % 2 ^ 32

/-- numberToIP (src line 368): extract the four octets of the 32-bit value. -/
def numberToIP (num : Nat) : IPv4 :=
  let n := num % 2 ^ 32
  ⟨n / 2 ^ 24 % 256, n / 2 ^ 16 % 256, n / 2 ^ 8 % 256, n % 256⟩

/-- isValidIP (src line 372): the regex admits one to three digits per
octet and each parsed octet must lie in 0..255. -/
def isValidIP (ip : IPv4) : Bool :=
  ip.o1 ≤ 255 && ip.o2 ≤ 255 && ip.o3 ≤ 255 && ip.o4 ≤ 255

/-- isPublicIP (src lines 382-398): valid and in none of the hardcoded
excluded checks (10/8, 172.16/12, 192.168/16, 127/8, 169.254/16, and
everything from 224.0.0.0 up). -/
def isPublicIP (ip : IPv4) : Bool :=
  isValidIP ip &&
    !(ip.o1 = 10
      || (ip.o1 = 172 && 16 ≤ ip.o2 && ip.o2 ≤ 31)
      || (ip.o1 = 192 && ip.o2 = 168)
      || ip.o1 = 127
      || (ip.o1 = 169 && ip.o2 = 254)
      || 224 ≤ ip.o1)

/-- The /24 subnet key of an address: its first three octets
(ip.split dot .slice(0,3), src line 771). -/
def subnetOf (ip : IPv4) : Nat × Nat × Nat :=
  (ip.o1, ip.o2, ip.o3)

/-- First-match lookup in an association list (models JS Map.get). -/
def lookupA {α β : Type} [DecidableEq α] : List (α × β) → α → Option β
  | [], _ => none
  | (k, v) :: rest, key => if k = key then some v else lookupA rest key

/-- Replace the first binding of a key, or append a new one (models JS
Map.set; these maps never hold duplicate keys). -/
def setAssoc {α β : Type} [DecidableEq α] : List (α × β) → α → β → List (α × β)
  | [], key, v => [(key, v)]
  | (k, w) :: rest, key, v =>
      if k = key then (key, v) :: rest else (k, w) :: setAssoc rest key v

/-- The mutable sets and tables of the scanner that the candidate
generator, rate limiter and prober consult (serverCache is the seen-set;
lastFound is stats.lastFoundServer.ip). -/
structure ScannerState where
  ipBlacklist : List IPv4
  serverCache : List IPv4
  rateLimiter : List ((Nat × Nat × Nat) × Nat)
  lastFound : Option IPv4
deriving DecidableEq, Repr

/-- The acceptance test of the do-while loop of generateRandomPublicIP
(src line 321): public, not blacklisted, not already seen. -/
def acceptIP (st : ScannerState) (ip : IPv4) : Bool :=
  isPublicIP ip && !(decide (ip ∈ st.ipBlacklist)) && !(decide (ip ∈ st.serverCache))

/-- generateRandomPublicIP (src lines 316-324): rejection sampling.  The
successive outputs of the four-octet random sampler are passed in as the
list draws; the source loops until a draw is accepted, so with a finite
draw stream the result is the first accepted draw, and none means the
loop is still spinning when the stream runs out. -/
def generateRandomPublicIP (st : ScannerState) : List IPv4 → Option IPv4
  | [] => none
  | d :: ds => if acceptIP st d then some d else generateRandomPublicIP st ds

/-- generateClusterBasedIP (src lines 326-339): copy the first three octets
of the last found server and redraw the last octet (r embeds
Math.floor(Math.random()*256)); with no last found server, fall back to
generateRandomPublicIP.  No exclusion, seen-set or blacklist check is made
on the cluster path. -/
def generateClusterBasedIP (st : ScannerState) (r : Nat) (draws : List IPv4) :
    Option IPv4 :=
  match st.lastFound with
  | some base => some ⟨base.o1, base.o2, base.o3, r % 256⟩
  | none => generateRandomPublicIP st draws

/-- The mask of a CIDR of the given prefix length
((0xFFFFFFFF << (32 - p)) >>> 0, src line 357; JS masks the shift count
to five bits). -/
def cidrMask (p : Nat) : Nat :=
  (4294967295 <<< ((32 - p) % 32)) % 2 ^ 32

/-- generateIPFromRange (src lines 354-362): base AND mask, OR a random
host part (h embeds Math.floor(Math.random()*2^hostBits)). -/
def generateIPFromRange (base : IPv4) (p : Nat) (h : Nat) : IPv4 :=
  numberToIP ((ipToNumber base &&& cidrMask p) ||| h % 2 ^ (32 - p))

/-- The fixed popular ranges of generatePopularRangeIP (src lines 343-348),
parsed from their CIDR strings. -/
def popularRanges : List (IPv4 × Nat) :=
  [(⟨8, 8, 8, 0⟩, 24), (⟨1, 1, 1, 0⟩, 24), (⟨4, 4, 4, 0⟩, 24), (⟨208, 67, 222, 0⟩, 24)]

/-- generatePopularRangeIP (src lines 341-352): pick one of the four fixed
CIDRs (k embeds the uniform index draw) and draw inside it.  No seen-set
or blacklist check is made. -/
def generatePopularRangeIP (k h : Nat) : IPv4 :=
  match popularRanges.get? (k % popularRanges.length) with
  | some (base, p) => generateIPFromRange base p h
  | none => ⟨0, 0, 0, 0⟩

/-- generateSmartIP (src lines 305-314): choose one of the three
sub-strategies uniformly (s embeds Math.floor(Math.random()*3)) and run
it. -/
def generateSmartIP (st : ScannerState) (s r k h : Nat) (draws : List IPv4) :
    Option IPv4 :=
  match s % 3 with
  | 0 => generateRandomPublicIP st draws
  | 1 => generateClusterBasedIP st r draws
  | _ => some (generatePopularRangeIP k h)

/-- Does a character list start with the given pattern (helper for
JS String.prototype.includes). -/
def charsStartWith : List Char → List Char → Bool
  | _, [] => true
  | [], _ :: _ => false
  | c :: cs, d :: ds => c = d && charsStartWith cs ds

/-- Does a character list contain the pattern as a contiguous run
(helper for JS String.prototype.includes). -/
def charsContain (l pat : List Char) : Bool :=
  charsStartWith l pat ||
    match l with
    | [] => false
    | _ :: t => charsContain t pat

/-- JS String.prototype.includes on Lean strings. -/
def strContains (s pat : String) : Bool :=
  charsContain s.data pat.data

/-- The character class of the MOTD formatting-code regex [0-9a-fk-or]. -/
def isFmtCode (c : Char) : Bool :=
  "0123456789abcdefklmnor".data.contains c

/-- Global replace of the pattern section-sign-then-code by the empty
string (the regex of extractMOTD, src line 681), scanning left to right. -/
def stripFormatting : List Char → List Char
  | [] => []
  | ['§'] => ['§']
  | '§' :: c :: rest =>
      if isFmtCode c then stripFormatting rest
      else '§' :: stripFormatting (c :: rest)
  | c :: rest => c :: stripFormatting rest

/-- version.name / version.protocol of the parsed status JSON. -/
structure RawVersion where
  name : Option String
  protocol : Option Int
deriving DecidableEq, Repr

/-- players.online / players.max / players.sample of the parsed status
JSON (sample entries are kept as opaque strings; the scanner never looks
inside them). -/
structure RawPlayers where
  online : Option Int
  max : Option Int
  sample : Option (List String)
deriving DecidableEq, Repr

/-- The polymorphic description field: either a bare JSON string or an
object with optional text and optional extra parts (each part with an
optional text). -/
inductive RawDescription where
  | str (s : String)
  | obj (text : Option String) (extra : Option (List (Option String)))
deriving DecidableEq, Repr

/-- The parsed status JSON as consumed by enhanceServerInfo.  stringified
carries JSON.stringify(rawInfo) verbatim, which the source recomputes for
detectModded and stores as the raw field. -/
structure RawStatus where
  version : Option RawVersion
  players : Option RawPlayers
  description : Option RawDescription
  favicon : Bool
  stringified : String
deriving DecidableEq, Repr

/-- extractVersion (src lines 655-660): version.name when truthy,
otherwise the string Unknown (an empty name is falsy in JS). -/
def extractVersion (raw : RawStatus) : String :=
  match raw.version with
  | some v =>
      match v.name with
      | some n => if n = "" then "Unknown" else n
      | none => "Unknown"
  | none => "Unknown"

/-- extractDescription (src lines 662-676): a string description is
returned as is; otherwise a truthy .text wins, then a present .extra is
joined part by part (missing part text becomes empty), else the literal
No description. -/
def extractDescription (raw : RawStatus) : String :=
  match raw.description with
  | some (.str s) => s
  | some (.obj text extra) =>
      match text with
      | some t =>
          if t = "" then
            match extra with
            | some parts => String.join (parts.map (fun p => p.getD ""))
            | none => "No description"
          else t
      | none =>
          match extra with
          | some parts => String.join (parts.map (fun p => p.getD ""))
          | none => "No description"
  | none => "No description"

/-- JS String.prototype.trim: drop whitespace from both ends (the ASCII
whitespace characters; exotic Unicode spaces are not modelled). -/
def trimChars (l : List Char) : List Char :=
  (((l.dropWhile Char.isWhitespace).reverse).dropWhile Char.isWhitespace).reverse

/-- extractMOTD (src lines 678-682): strip formatting codes and trim. -/
def extractMOTD (raw : RawStatus) : String :=
  String.mk (trimChars (stripFormatting (extractDescription raw).data))

/-- The modded indicator substrings of detectModded (src lines 684-692). -/
def moddedIndicators : List String :=
  ["forge", "fabric", "bukkit", "spigot", "paper", "sponge",
   "mod", "plugin", "cauldron", "mohist", "magma"]

/-- detectModded: search the lowercased serialized status JSON for any
indicator. -/
def detectModded (raw : RawStatus) : Bool :=
  moddedIndicators.any (fun i => strContains raw.stringified.toLower i)

/-- The hostname keyword table of extractLocationFromHostname
(src lines 708-723), in source order (first match wins). -/
def locationIndicators : List (String × String) :=
  [("us", "United States"), ("uk", "United Kingdom"), ("de", "Germany"),
   ("fr", "France"), ("nl", "Netherlands"), ("au", "Australia"),
   ("ca", "Canada"), ("jp", "Japan"), ("kr", "South Korea"),
   ("br", "Brazil"), ("ru", "Russia"), ("cn", "China")]

/-- extractLocationFromHostname: first table code contained in the
lowercased hostname wins, else Unknown. -/
def extractLocationFromHostname (hostname : String) : String :=
  match locationIndicators.find? (fun p => strContains hostname.toLower p.1) with
  | some p => p.2
  | none => "Unknown"

/-- getServerLocation (src lines 694-706) with the reverse-DNS answer
passed in explicitly: none models a failed or empty lookup. -/
def getServerLocation (hostname : Option String) : String :=
  match hostname with
  | some h => extractLocationFromHostname h
  | none => "Unknown"

/-- extractCountry (src lines 725-727). -/
def extractCountry (location : String) : String :=
  if location = "Unknown" then "Unknown" else location

/-- The players component of an EnrichedServer. -/
structure EnrichedPlayers where
  online : Int
  max : Int
  sample : List String
deriving DecidableEq, Repr

/-- The enriched record built by enhanceServerInfo.  timestamp stands for
the ISO string new Date().toISOString() (date formatting is not modelled);
favicon true models the string Present; protocol none models the string
Unknown (which the source also uses for a falsy protocol 0). -/
structure EnrichedServer where
  ip : IPv4
  port : Nat
  timestamp : Nat
  responseTime : Nat
  version : String
  protocol : Option Int
  players : EnrichedPlayers
  description : String
  motd : String
  favicon : Bool
  modded : Bool
  country : String
  qualityScore : Nat
  raw : String
deriving DecidableEq, Repr

/-- The version substrings that earn the recency bonus
(src line 741). -/
def knownVersions : List String := ["1.21", "1.20", "1.19", "1.18"]

/-- calculateQualityScore (src lines 729-748): the sequential bonus adds,
capped at 100 at the end. -/
def calculateQualityScore (s : EnrichedServer) : Nat :=
  let score := 0
  let score := if s.players.online > 0 then score + 20 else score
  let score := if s.players.online > 10 then score + 20 else score
  let score := if s.players.online > 50 then score + 20 else score
  let score := if s.motd ≠ "" ∧ s.motd.length > 10 then score + 15 else score
  let score := if knownVersions.any (fun v => strContains s.version v) then score + 15 else score
  let score := if s.responseTime < 100 then score + 10 else score
  min score 100

/-- The configuration options consumed by the modelled core
(src lines 36-72, constructor defaults). -/
structure Config where
  port : Nat := 25565
  timeout : Nat := 3000
  maxRetries : Nat := 2
  minPlayers : Int := 0
  maxPlayers : Option Int := none
  versionFilter : Option (List String) := none
  enableGeolocation : Bool := true
deriving Repr

/-- enhanceServerInfo (src lines 603-653): build the enriched record, then
overwrite its quality score with calculateQualityScore of itself.  The
reverse-DNS answer is passed in as hostname (none: lookup failed); now
stands for the wall-clock timestamp taken at enrichment. -/
def enhanceServerInfo (cfg : Config) (ip : IPv4) (raw : RawStatus)
    (responseTime : Nat) (hostname : Option String) (now : Nat) : EnrichedServer :=
  let location := getServerLocation hostname
  let base : EnrichedServer :=
    { ip := ip
      port := cfg.port
      timestamp := now
      responseTime := responseTime
      version := extractVersion raw
      protocol :=
        match raw.version with
        | some v => match v.protocol with
                    | some p => if p = 0 then none else some p
                    | none => none
        | none => none
      players :=
        { online := (match raw.players with | some p => p.online.getD 0 | none => 0)
          max := (match raw.players with | some p => p.max.getD 0 | none => 0)
          sample := (match raw.players with | some p => p.sample.getD [] | none => []) }
      description := extractDescription raw
      motd := extractMOTD raw
      favicon := raw.favicon
      modded := detectModded raw
      country := if cfg.enableGeolocation then extractCountry location else "Unknown"
      qualityScore := 0
      raw := raw.stringified }
  { base with qualityScore := calculateQualityScore base }

/-- passesFilters (src lines 751-767). -/
def passesFilters (cfg : Config) (s : EnrichedServer) : Bool :=
  (match cfg.versionFilter with
   | some allowed => allowed.contains s.version
   | none => true) &&
  !(s.players.online < cfg.minPlayers) &&
  (match cfg.maxPlayers with
   | some m => !(s.players.online > m)
   | none => true)

/-- The value-bytesRead pair returned by readVarInt.  value carries the
32 accumulator bits (JS reinterprets them as signed; the sign does not
matter to any property proved here). -/
structure VarIntResult where
  value : Nat
  bytesRead : Nat
deriving DecidableEq, Repr

/-- One-to-one translation of the do-while body of readVarInt
(src lines 584-600) over a structural fuel argument kept equal to
5 - bytesRead (the loop guard bytesRead < 5 makes the fuel-0 case
unreachable from the entry point).  A missing byte models the thrown
buffer-overflow error; the accumulator step is the JS 32-bit
value OR ((byte AND 0x7F) shifted left by 7*bytesRead). -/
def readVarIntGo (buffer : List Nat) (offset : Nat) :
    Nat → Nat → Nat → Option VarIntResult
  | _, _, 0 => none
  | value, bytesRead, fuel + 1 =>
      match buffer.get? (offset + bytesRead) with
      | none => none
      | some b =>
          let value := (value ||| (b &&& 0x7F) <<< (7 * bytesRead)) % 2 ^ 32
          let bytesRead := bytesRead + 1
          if b &&& 0x80 ≠ 0 ∧ bytesRead < 5 then
            readVarIntGo buffer offset value bytesRead fuel
          else
            some ⟨value, bytesRead⟩

/-- readVarInt (src lines 584-600): run the loop from a zero accumulator. -/
def readVarInt (buffer : List Nat) (offset : Nat) : Option VarIntResult :=
  readVarIntGo buffer offset 0 0 5

/-- isRateLimited (src lines 770-776): a subnet is limited when its table
entry is truthy (nonzero) and younger than 1000 ms.  Timestamps are
subtracted over the integers as in JS. -/
def isRateLimited (table : List ((Nat × Nat × Nat) × Nat)) (ip : IPv4)
    (now : Nat) : Bool :=
  match lookupA table (subnetOf ip) with
  | some t => t ≠ 0 && (now : Int) - (t : Int) < 1000
  | none => false

/-- updateRateLimit (src lines 778-781): stamp the subnet with the current
time. -/
def updateRateLimit (table : List ((Nat × Nat × Nat) × Nat)) (ip : IPv4)
    (now : Nat) : List ((Nat × Nat × Nat) × Nat) :=
  setAssoc table (subnetOf ip) now

/-- The admission decision the dispatcher gets for a candidate. -/
inductive AdmitDecision where
  | allow
  | defer
deriving DecidableEq, Repr

/-- The admission step performed by checkMinecraftServer for a fresh
candidate: the isRateLimited guard (src line 408) defers, otherwise the
probe proceeds and its finally clause stamps the subnet via
updateRateLimit (src line 448).  Note the source consults only the rate
limiter here; the blacklist is read nowhere on this path. -/
def admitCheck (st : ScannerState) (ip : IPv4) (now : Nat) :
    AdmitDecision × ScannerState :=
  if isRateLimited st.rateLimiter ip now then (.defer, st)
  else (.allow, { st with rateLimiter := updateRateLimit st.rateLimiter ip now })

/-- What one performServerPing call (src lines 452-515) hands back to
checkMinecraftServer.  Connect errors, resets, timeouts and parse
failures all resolve null (the promise never rejects), modelled as nil;
a parsed status resolves ok; thrown models a rejection or a synchronous
throw out of the awaited call, which is what the catch clause of
checkMinecraftServer would see. -/
inductive PingResult where
  | ok (raw : RawStatus)
  | nil
  | thrown
deriving Repr

/-- What a checkMinecraftServer call chain produced: its return value, the
updated scanner state, the delays awaited in order, and the counts of
connectionErrors increments and of performServerPing invocations. -/
structure CheckOutcome where
  result : Option EnrichedServer
  state : ScannerState
  delays : List Nat
  connectionErrors : Nat
  attemptsMade : Nat
deriving Repr

/-- checkMinecraftServer (src lines 401-450).  The outcome of each
successive performServerPing attempt is supplied by pings; rt and
hostname parameterize the measured response time and the reverse-DNS
answer of the attempt that succeeds; now is the wall clock, held fixed
across the chain.  Entering with retryCount at maxRetries blacklists the
address; a rate-limited entry sleeps 100 ms and gives up; a nil ping
returns null with no retry; only a thrown ping reaches the catch clause,
which counts a connection error, sleeps 500*(retryCount+1) ms and
recurses, the finally clause stamping the rate limiter afterwards. -/
def checkMinecraftServer (cfg : Config) (st : ScannerState) (ip : IPv4)
    (now rt : Nat) (hostname : Option String) :
    List PingResult → Nat → CheckOutcome
  | pings, retryCount =>
    if cfg.maxRetries ≤ retryCount then
      { result := none
        state := { st with ipBlacklist := ip :: st.ipBlacklist }
        delays := []
        connectionErrors := 0
        attemptsMade := 0 }
    else if isRateLimited st.rateLimiter ip now then
      { result := none, state := st, delays := [100]
        connectionErrors := 0, attemptsMade := 0 }
    else
      match pings with
      | [] =>
          { result := none
            state := { st with rateLimiter := updateRateLimit st.rateLimiter ip now }
            delays := [], connectionErrors := 0, attemptsMade := 0 }
      | p :: rest =>
          match p with
          | .ok raw =>
              let enhanced := enhanceServerInfo cfg ip raw rt hostname now
              { result := if passesFilters cfg enhanced then some enhanced else none
                state := { st with rateLimiter := updateRateLimit st.rateLimiter ip now }
                delays := [], connectionErrors := 0, attemptsMade := 1 }
          | .nil =>
              { result := none
                state := { st with rateLimiter := updateRateLimit st.rateLimiter ip now }
                delays := [], connectionErrors := 0, attemptsMade := 1 }
          | .thrown =>
              if retryCount < cfg.maxRetries then
                let inner := checkMinecraftServer cfg st ip now rt hostname rest (retryCount + 1)
                { result := inner.result
                  state := { inner.state with
                              rateLimiter := updateRateLimit inner.state.rateLimiter ip now }
                  delays := 500 * (retryCount + 1) :: inner.delays
                  connectionErrors := inner.connectionErrors + 1
                  attemptsMade := inner.attemptsMade + 1 }
              else
                { result := none
                  state := { st with rateLimiter := updateRateLimit st.rateLimiter ip now }
                  delays := [], connectionErrors := 1, attemptsMade := 1 }

/-- The statistics record of the scanner (src lines 75-108).  Rates are
rationals; process memory usage is not modelled; startTime none models
the initial null. -/
structure Stats where
  totalScanned : Nat
  totalFound : Nat
  duplicatesSkipped : Nat
  errorsEncountered : Nat
  startTime : Option Nat
  uptime : Nat
  avgScanRate : ℚ
  peakScanRate : ℚ
  avgResponseTime : ℚ
  successRate : ℚ
  serversByVersion : List (String × Nat)
  serversByCountry : List (String × Nat)
  serversByPlayerCount : List (String × Nat)
  popularMOTDs : List (String × Nat)
  activeConnections : Nat
  timeoutCount : Nat
  connectionErrors : Nat
  lastFoundServer : Option EnrichedServer
  bestServer : Option EnrichedServer
  gcCount : Nat

/-- The freshly constructed statistics record (src lines 75-108). -/
def initialStats : Stats :=
  { totalScanned := 0, totalFound := 0, duplicatesSkipped := 0
    errorsEncountered := 0, startTime := none, uptime := 0
    avgScanRate := 0, peakScanRate := 0, avgResponseTime := 0, successRate := 0
    serversByVersion := [], serversByCountry := [], serversByPlayerCount := []
    popularMOTDs := [], activeConnections := 0, timeoutCount := 0
    connectionErrors := 0, lastFoundServer := none, bestServer := none
    gcCount := 0 }

/-- getPlayerCountRange (src lines 870-877). -/
def getPlayerCountRange (playerCount : Int) : String :=
  if playerCount = 0 then "0 players"
  else if playerCount ≤ 5 then "1-5 players"
  else if playerCount ≤ 20 then "6-20 players"
  else if playerCount ≤ 50 then "21-50 players"
  else if playerCount ≤ 100 then "51-100 players"
  else "100+ players"

/-- updateServerStats (src lines 839-868): bump the version, country and
player-bucket tallies, tally the MOTD when it is truthy, longer than five
characters and still below the per-entry cap of 10, refresh the best
server, and record the last found server. -/
def updateServerStats (s : Stats) (info : EnrichedServer) : Stats :=
  let versionCount := (lookupA s.serversByVersion info.version).getD 0
  let s := { s with serversByVersion := setAssoc s.serversByVersion info.version (versionCount + 1) }
  let countryCount := (lookupA s.serversByCountry info.country).getD 0
  let s := { s with serversByCountry := setAssoc s.serversByCountry info.country (countryCount + 1) }
  let range := getPlayerCountRange info.players.online
  let playerCount := (lookupA s.serversByPlayerCount range).getD 0
  let s := { s with serversByPlayerCount := setAssoc s.serversByPlayerCount range (playerCount + 1) }
  let s :=
    if info.motd ≠ "" ∧ 5 < info.motd.length then
      let motdCount := (lookupA s.popularMOTDs info.motd).getD 0
      if motdCount < 10 then
        { s with popularMOTDs := setAssoc s.popularMOTDs info.motd (motdCount + 1) }
      else s
    else s
  let s :=
    if (match s.bestServer with
        | none => true
        | some best => best.qualityScore < info.qualityScore) then
      { s with bestServer := some info }
    else s
  { s with lastFoundServer := some info }

/-- updateStatistics (src lines 880-897): refresh uptime and the derived
rates.  Note it does not touch avgResponseTime. -/
def updateStatistics (s : Stats) (now : Nat) : Stats :=
  let uptime := now - s.startTime.getD 0
  let uptimeSeconds : ℚ := max 1 ((uptime : ℚ) / 1000)
  let avgScanRate := (s.totalScanned : ℚ) / uptimeSeconds
  let successRate : ℚ :=
    if 0 < s.totalScanned then (s.totalFound : ℚ) / (s.totalScanned : ℚ) * 100 else 0
  let peak := if s.peakScanRate < avgScanRate then avgScanRate else s.peakScanRate
  { s with uptime := uptime, avgScanRate := avgScanRate
           successRate := successRate, peakScanRate := peak }

/-- updateAverageResponseTime of src/scanmc.js lines 247-250, the only
place in the repository that implements the response-time EMA:
avg becomes (1 - alpha)*avg + alpha*sample with alpha 0.1. -/
def updateAverageResponseTime (avg newTime : ℚ) : ℚ :=
  let alpha : ℚ := 1 / 10
  (1 - alpha) * avg + alpha * newTime

/-- resetStats (src lines 1118-1150): rebuild the record with the volatile
fields zeroed, start time reseeded, and totalFound, serversByVersion and
serversByCountry carried over. -/
def resetStats (s : Stats) (now : Nat) : Stats :=
  { totalScanned := 0
    totalFound := s.totalFound
    duplicatesSkipped := 0
    errorsEncountered := 0
    startTime := some now
    uptime := 0
    avgScanRate := 0
    peakScanRate := 0
    avgResponseTime := 0
    successRate := 0
    serversByVersion := s.serversByVersion
    serversByCountry := s.serversByCountry
    serversByPlayerCount := []
    popularMOTDs := []
    activeConnections := 0
    timeoutCount := 0
    connectionErrors := 0
    lastFoundServer := none
    bestServer := none
    gcCount := 0 }

/-- The statistics merge of loadExistingData (src lines 259-270):
totalFound and the version and country maps are taken from the saved
session snapshot; everything else keeps its session-fresh value. -/
def loadSavedStats (s : Stats) (savedFound : Nat)
    (vers countries : List (String × Nat)) : Stats :=
  { s with totalFound := savedFound, serversByVersion := vers
           serversByCountry := countries }

/-- The counter effect of one scanSingleServer call (src lines 1032-1048):
totalScanned is bumped first; a found server then flows through saveServer
(whose updateServerStats call is applied here) before totalFound is
bumped. -/
def scanSingleServerStep (s : Stats) (found : Option EnrichedServer) : Stats :=
  let s1 := { s with totalScanned := s.totalScanned + 1 }
  match found with
  | some info =>
      let s2 := updateServerStats s1 info
      { s2 with totalFound := s2.totalFound + 1 }
  | none => s1

/-- The statistics-mutating events of a session, as the claims need them:
a completed scan (with its found server, when any), a resetStats keypress,
and the startup statistics load. -/
inductive SessionEvent where
  | scan (found : Option EnrichedServer)
  | reset (now : Nat)
  | load (savedFound : Nat) (vers countries : List (String × Nat))

/-- Is the event a plain completed scan. -/
def isScanEvent : SessionEvent → Bool
  | .scan _ => true
  | _ => false

/-- Apply one session event to the statistics record. -/
def sessionStep (s : Stats) (e : SessionEvent) : Stats :=
  match e with
  | .scan found => scanSingleServerStep s found
  | .reset now => resetStats s now
  | .load f v c => loadSavedStats s f v c

/-- Run a session from the fresh statistics record. -/
def runSession (evts : List SessionEvent) : Stats :=
  evts.foldl sessionStep initialStats

/-- The popularMOTDs invariant of claim C10: every tallied MOTD is longer
than five characters and no tally exceeds 10. -/
def motdInv (m : List (String × Nat)) : Bool :=
  m.all (fun p => 5 < p.1.length && p.2 ≤ 10)

/-- The configuration the main entry point builds (src lines 1252-1265):
timeout 2500 ms, maxRetries 2, default filters. -/
def mcConfig : Config := { timeout := 2500, maxRetries := 2 }

/-- A scanner state with everything empty (session start, nothing seen). -/
def emptyState : ScannerState := ⟨[], [], [], none⟩

/-- The framed status JSON of the successful-probe scenario, parsed, with
its serialized form carried verbatim. -/
def c1raw : RawStatus :=
  { version := some { name := some "1.20.4", protocol := some 765 }
    players := some { online := some 25, max := some 100, sample := none }
    description := some (.obj (some "Welcome") none)
    favicon := false
    stringified := "\x7b\"version\":\x7b\"name\":\"1.20.4\",\"protocol\":765\x7d,\"players\":\x7b\"online\":25,\"max\":100\x7d,\"description\":\x7b\"text\":\"Welcome\"\x7d\x7d" }

/-- The enrichment of the scenario status at a response time of 150 ms. -/
def exampleServer : EnrichedServer :=
  enhanceServerInfo mcConfig ⟨203, 0, 113, 7⟩ c1raw 150 none 0

/-- A scanner state after one discovery of 1.2.3.4: the address sits in
the seen-set and is the cluster base. -/
def clusterState : ScannerState := ⟨[], [⟨1, 2, 3, 4⟩], [], some ⟨1, 2, 3, 4⟩⟩

/-- A scanner state whose blacklist holds 9.9.9.9. -/
def blacklistedState : ScannerState := ⟨[⟨9, 9, 9, 9⟩], [], [], none⟩

/-- A private address (inside 10/8), rejected by every acceptance test. -/
def privateIP : IPv4 := ⟨10, 0, 0, 1⟩

/-- A buffer of five bytes that all carry the VarInt continuation bit. -/
def fiveContBytes : List Nat := List.replicate 5 128

/-- A session trace that finds one server and then resets statistics. -/
def c7events : List SessionEvent := [.scan (some exampleServer), .reset 100]

/-- A session trace of two plain scans, one of them a discovery. -/
def c7scanEvents : List SessionEvent := [.scan (some exampleServer), .scan none]

/-- Inserting a key longer than five characters with a tally of at most 10
preserves the popularMOTDs invariant. -/
theorem motdInv_setAssoc (m : List (String × Nat)) (k : String) (v : Nat)
    (hm : motdInv m = true) (hk : 5 < k.length) (hv : v ≤ 10) :
    motdInv (setAssoc m k v) = true := by
  induction m with
  | nil => simp [setAssoc, motdInv, hk, hv]
  | cons p rest ih =>
      obtain ⟨a, b⟩ := p
      simp only [motdInv, List.all_cons, Bool.and_eq_true] at hm
      by_cases hak : a = k
      · subst hak
        simp only [setAssoc, if_pos rfl]
        simp [motdInv, hk, hv, hm.2]
      · simp only [setAssoc, if_neg hak]
        have := ih (by simp [motdInv, hm.2])
        simp only [motdInv, List.all_cons, Bool.and_eq_true] at this ⊢
        exact ⟨by simp [hm.1], this⟩

/-- One updateServerStats call preserves the popularMOTDs invariant: the
map changes only under the length and tally guards of the source. -/
theorem motdInv_updateServerStats (s : Stats) (info : EnrichedServer)
    (h : motdInv s.popularMOTDs = true) :
    motdInv (updateServerStats s info).popularMOTDs = true := by
  unfold updateServerStats
  dsimp only
  by_cases hmotd : info.motd ≠ "" ∧ 5 < info.motd.length
  · rw [if_pos hmotd]
    by_cases hcnt : (lookupA s.popularMOTDs info.motd).getD 0 < 10
    · rw [if_pos hcnt]
      split <;> exact motdInv_setAssoc _ _ _ h hmotd.2 (by omega)
    · rw [if_neg hcnt]
      split <;> exact h
  · rw [if_neg hmotd]
    split <;> exact h

/-- updateServerStats touches only the tally maps, the best server and the
last found server: the scan counters and the response-time EMA field pass
through unchanged. -/
theorem updateServerStats_scalars (s : Stats) (info : EnrichedServer) :
    (updateServerStats s info).totalScanned = s.totalScanned ∧
    (updateServerStats s info).totalFound = s.totalFound ∧
    (updateServerStats s info).avgResponseTime = s.avgResponseTime := by
  refine ⟨?_, ?_, ?_⟩ <;>
    (unfold updateServerStats
     dsimp only
     split <;> first
       | rfl
       | (split <;> first
           | rfl
           | (split <;> rfl)))

/-- Over scan events alone, one step of the session keeps totalFound at or
below totalScanned, for any starting statistics that already satisfy the
inequality. -/
theorem sessionStep_scanOnly (evts : List SessionEvent)
    (h : ∀ e ∈ evts, isScanEvent e = true) :
    ∀ s : Stats, s.totalFound ≤ s.totalScanned →
      (evts.foldl sessionStep s).totalFound ≤ (evts.foldl sessionStep s).totalScanned := by
  induction evts with
  | nil => intro s hs; simpa using hs
  | cons e es ih =>
      intro s hs
      have he : isScanEvent e = true := h e (List.mem_cons_self _ _)
      rw [List.foldl_cons]
      refine ih (fun x hx => h x (List.mem_cons_of_mem _ hx)) _ ?_
      match e with
      | .scan found =>
          cases found with
          | none =>
              simp only [sessionStep, scanSingleServerStep]
              omega
          | some info =>
              simp only [sessionStep, scanSingleServerStep]
              have h1 := (updateServerStats_scalars { s with totalScanned := s.totalScanned + 1 } info).1
              have h2 := (updateServerStats_scalars { s with totalScanned := s.totalScanned + 1 } info).2.1
              dsimp only at h1 h2 ⊢
              omega
      | .reset now => simp [isScanEvent] at he
      | .load a b c => simp [isScanEvent] at he

/-- Looking a key up right after setting it yields the stored value. -/
theorem lookupA_setAssoc {α β : Type} [DecidableEq α] (l : List (α × β)) (k : α) (v : β) :
    lookupA (setAssoc l k v) k = some v := by
  induction l with
  | nil => simp [setAssoc, lookupA]
  | cons p rest ih =>
      obtain ⟨a, b⟩ := p
      by_cases hk : a = k
      · simp [setAssoc, hk, lookupA]
      · simp [setAssoc, hk, lookupA, ih]

/-- The admission step allows exactly when the rate limiter does not veto
the subnet. -/
theorem admitCheck_allow_iff (st : ScannerState) (ip : IPv4) (now : Nat) :
    ((admitCheck st ip now).1 = .allow) ↔
      isRateLimited st.rateLimiter ip now = false := by
  unfold admitCheck
  by_cases hrl : isRateLimited st.rateLimiter ip now = true
  · simp [hrl]
  · simp only [Bool.not_eq_true] at hrl
    simp [hrl]

/-- On allow, the admission step stamps the /24 subnet with the current
time. -/
theorem admitCheck_allow_stamps (st : ScannerState) (ip : IPv4) (now : Nat)
    (h : (admitCheck st ip now).1 = .allow) :
    lookupA (admitCheck st ip now).2.rateLimiter (subnetOf ip) = some now := by
  unfold admitCheck at h ⊢
  by_cases hrl : isRateLimited st.rateLimiter ip now = true
  · simp [hrl] at h
  · simp only [Bool.not_eq_true] at hrl
    simp only [hrl, Bool.false_eq_true, if_neg, ite_false]
    exact lookupA_setAssoc _ _ _

/-- The rate-limiter scenario of the spec, run at any nonzero base time:
allow, then defer inside the same second for the same /24, then allow
again 1100 ms after the stamp. -/
theorem admitCheck_scenario (t0 : Nat) (ht0 : 0 < t0) :
    (admitCheck emptyState ⟨198, 51, 100, 5⟩ t0).1 = .allow ∧
    (admitCheck (admitCheck emptyState ⟨198, 51, 100, 5⟩ t0).2
        ⟨198, 51, 100, 240⟩ (t0 + 200)).1 = .defer ∧
    (admitCheck ((admitCheck (admitCheck emptyState ⟨198, 51, 100, 5⟩ t0).2
        ⟨198, 51, 100, 240⟩ (t0 + 200)).2) ⟨198, 51, 100, 7⟩ (t0 + 1100)).1 = .allow := by
  have hne : t0 ≠ 0 := by omega
  refine ⟨?_, ?_, ?_⟩ <;>
    simp [admitCheck, isRateLimited, updateRateLimit, setAssoc, lookupA, subnetOf,
          emptyState, hne]

/-- Every successful run of the readVarInt loop advances bytesRead and
consumes at most its fuel. -/
theorem readVarIntGo_bounds (buffer : List Nat) (offset : Nat) :
    ∀ fuel value br r, readVarIntGo buffer offset value br fuel = some r →
      br < r.bytesRead ∧ r.bytesRead ≤ br + fuel := by
  intro fuel
  induction fuel with
  | zero => intro value br r h; simp [readVarIntGo] at h
  | succ f ih =>
      intro value br r h
      rw [readVarIntGo] at h
      match hb : buffer.get? (offset + br) with
      | none => rw [hb] at h; simp at h
      | some b =>
          rw [hb] at h
          dsimp only at h
          split at h
          · have := ih _ _ _ h
            omega
          · have : r = ⟨(value ||| (b &&& 0x7F) <<< (7 * br)) % 2 ^ 32, br + 1⟩ := by
              injection h with h2; exact h2.symm
            subst this
            dsimp only
            omega

/-- With five bytes available past the offset, the readVarInt loop always
returns a value: the guard bytesRead below 5 stops it before it can run
out of buffer. -/
theorem readVarIntGo_total (buffer : List Nat) (offset : Nat) :
    ∀ fuel value br, 0 < fuel → br + fuel = 5 → offset + 5 ≤ buffer.length →
      (readVarIntGo buffer offset value br fuel).isSome = true := by
  intro fuel
  induction fuel with
  | zero => intro value br h0; omega
  | succ f ih =>
      intro value br h0 hsum hlen
      have hlt : offset + br < buffer.length := by omega
      rw [readVarIntGo]
      rw [List.get?_eq_get hlt]
      dsimp only
      split
      case isTrue hcond =>
        exact ih _ _ (by omega) (by omega) hlen
      case isFalse hcond => rfl

/-- C1 counterexample: at a response time of 150 ms (at least 100 ms, as
the claim assumes), enriching the scenario status yields a quality score
of 55, not the claimed 50 — the 25 online players earn both the
greater-than-0 and the greater-than-10 bonuses, while the 7-character
motd Welcome earns no length bonus. -/
theorem C1_counterexample :
    100 ≤ 150 ∧
    (enhanceServerInfo mcConfig ⟨203, 0, 113, 7⟩ c1raw 150 none 0).qualityScore = 55 ∧
    (enhanceServerInfo mcConfig ⟨203, 0, 113, 7⟩ c1raw 150 none 0).qualityScore ≠ 50 := by
  refine ⟨by omega, by rfl, by decide⟩

/-- C1 (amended): for the scenario status, enrichment yields version
1.20.4, players 25 of 100 and motd Welcome, and for every measured
response time of at least 100 ms the quality score is 55 (20 for online
players, 20 for more than 10 of them, 15 for a version containing 1.20;
the 7-character motd earns nothing, nor does the slow response). -/
theorem C1_amended (t : Nat) (h : 100 ≤ t) :
    (enhanceServerInfo mcConfig ⟨203, 0, 113, 7⟩ c1raw t none 0).version = "1.20.4" ∧
    (enhanceServerInfo mcConfig ⟨203, 0, 113, 7⟩ c1raw t none 0).players.online = 25 ∧
    (enhanceServerInfo mcConfig ⟨203, 0, 113, 7⟩ c1raw t none 0).players.max = 100 ∧
    (enhanceServerInfo mcConfig ⟨203, 0, 113, 7⟩ c1raw t none 0).motd = "Welcome" ∧
    (enhanceServerInfo mcConfig ⟨203, 0, 113, 7⟩ c1raw t none 0).qualityScore = 55 := by
  have hq : (enhanceServerInfo mcConfig ⟨203, 0, 113, 7⟩ c1raw t none 0).qualityScore
      = min (if t < 100 then 55 + 10 else 55) 100 := by rfl
  refine ⟨rfl, rfl, rfl, rfl, ?_⟩
  rw [hq, if_neg (by omega : ¬ t < 100)]
  rfl

/-- C1 witness: the amended statement instantiated at a response time of
150 ms. -/
theorem C1_amended_witness :
    100 ≤ 150 ∧
    ((enhanceServerInfo mcConfig ⟨203, 0, 113, 7⟩ c1raw 150 none 0).version = "1.20.4" ∧
     (enhanceServerInfo mcConfig ⟨203, 0, 113, 7⟩ c1raw 150 none 0).players.online = 25 ∧
     (enhanceServerInfo mcConfig ⟨203, 0, 113, 7⟩ c1raw 150 none 0).players.max = 100 ∧
     (enhanceServerInfo mcConfig ⟨203, 0, 113, 7⟩ c1raw 150 none 0).motd = "Welcome" ∧
     (enhanceServerInfo mcConfig ⟨203, 0, 113, 7⟩ c1raw 150 none 0).qualityScore = 55) :=
  ⟨by omega, C1_amended 150 (by omega)⟩

/-- C2 counterexample: in smart-random mode with the cluster sub-strategy
chosen, a state whose last found server 1.2.3.4 already sits in the
seen-set makes the generator return 1.2.3.4 itself — an address in the
seen-set — because the cluster path checks neither the seen-set nor the
blacklist. -/
theorem C2_counterexample :
    generateSmartIP clusterState 1 4 0 0 [] = some ⟨1, 2, 3, 4⟩ ∧
    ⟨1, 2, 3, 4⟩ ∈ clusterState.serverCache := by
  refine ⟨by decide, by decide⟩

/-- C2 (amended): the uniform rejection-sampled sub-strategy (the whole of
random mode) never returns an address in an excluded range, in the
seen-set or in the blacklist; the cluster and popular-range
sub-strategies of smart-random mode make none of these checks and can
return seen or blacklisted addresses. -/
theorem C2_amended (st : ScannerState) (draws : List IPv4) (ip : IPv4)
    (h : generateRandomPublicIP st draws = some ip) :
    isPublicIP ip = true ∧ ip ∉ st.ipBlacklist ∧ ip ∉ st.serverCache := by
  induction draws with
  | nil => exact absurd h (by simp [generateRandomPublicIP])
  | cons d ds ih =>
      rw [generateRandomPublicIP] at h
      split at h
      case isTrue hacc =>
        obtain rfl : d = ip := by injection h
        have h3 : (isPublicIP d = true ∧ d ∉ st.ipBlacklist) ∧ d ∉ st.serverCache := by
          simpa [acceptIP, Bool.and_eq_true, Bool.not_eq_true', decide_eq_false_iff_not] using hacc
        exact ⟨h3.1.1, h3.1.2, h3.2⟩
      case isFalse hacc => exact ih h

/-- C2 witness: the amended statement instantiated on an empty state and a
single accepted draw of 8.8.8.8. -/
theorem C2_amended_witness :
    generateRandomPublicIP emptyState [⟨8, 8, 8, 8⟩] = some ⟨8, 8, 8, 8⟩ ∧
    (isPublicIP ⟨8, 8, 8, 8⟩ = true ∧
     (⟨8, 8, 8, 8⟩ : IPv4) ∉ emptyState.ipBlacklist ∧
     (⟨8, 8, 8, 8⟩ : IPv4) ∉ emptyState.serverCache) :=
  ⟨by decide, C2_amended emptyState [⟨8, 8, 8, 8⟩] ⟨8, 8, 8, 8⟩ (by decide)⟩

/-- C3: with maxRetries 2, a probe attempt whose ping resolves null (the
connect-error, reset, timeout and malformed-parse outcomes all do) makes
checkMinecraftServer return immediately: no backoff delay, a single
attempt, no connection-error count, no blacklist insertion — the
retry-with-backoff-then-blacklist behavior the claim describes runs only
on the thrown path (second group of conjuncts), which performServerPing
never takes since it resolves null instead of rejecting. -/
theorem C3_code_bug :
    (checkMinecraftServer mcConfig emptyState ⟨203, 0, 113, 9⟩ 5 120 none [.nil] 0).delays = [] ∧
    (checkMinecraftServer mcConfig emptyState ⟨203, 0, 113, 9⟩ 5 120 none [.nil] 0).attemptsMade = 1 ∧
    (checkMinecraftServer mcConfig emptyState ⟨203, 0, 113, 9⟩ 5 120 none [.nil] 0).connectionErrors = 0 ∧
    (checkMinecraftServer mcConfig emptyState ⟨203, 0, 113, 9⟩ 5 120 none [.nil] 0).result = none ∧
    (checkMinecraftServer mcConfig emptyState ⟨203, 0, 113, 9⟩ 5 120 none [.nil] 0).state.ipBlacklist = [] ∧
    (checkMinecraftServer mcConfig emptyState ⟨203, 0, 113, 9⟩ 5 120 none
        [.thrown, .thrown] 0).delays = [500, 1000] ∧
    (checkMinecraftServer mcConfig emptyState ⟨203, 0, 113, 9⟩ 5 120 none
        [.thrown, .thrown] 0).state.ipBlacklist = [⟨203, 0, 113, 9⟩] := by
  refine ⟨by decide, by decide, by decide, by decide, by decide, by decide, by decide⟩

/-- C4 counterexample: a buffer of five bytes that all carry the
continuation bit decodes without error — readVarInt stops after the
fifth byte and returns the accumulated value with bytesRead 5, so
overflow past five continuation bytes is not a parse error in this
code. -/
theorem C4_counterexample :
    (∀ b ∈ fiveContBytes, b &&& 128 ≠ 0) ∧
    readVarInt fiveContBytes 0 = some ⟨0, 5⟩ := by
  refine ⟨by decide, by decide⟩

/-- C4 (amended): a VarInt decode consumes between one and five bytes with
seven payload bits per byte; five continuation bytes do not raise an
error — the decoder stops at the fifth byte and yields the accumulated
value, and whenever at least five bytes remain past the offset it always
yields a value, the only decode error being running off the end of the
buffer. -/
theorem C4_amended :
    (∀ buffer offset r, readVarInt buffer offset = some r →
        1 ≤ r.bytesRead ∧ r.bytesRead ≤ 5) ∧
    (∀ buffer offset, offset + 5 ≤ buffer.length →
        (readVarInt buffer offset).isSome = true) := by
  constructor
  · intro buffer offset r h
    have := readVarIntGo_bounds buffer offset 5 0 0 r h
    omega
  · intro buffer offset h
    exact readVarIntGo_total buffer offset 5 0 0 (by omega) (by omega) h

/-- C4 witness: the amended statement instantiated on the five-byte
all-continuation buffer. -/
theorem C4_amended_witness :
    (readVarInt fiveContBytes 0 = some ⟨0, 5⟩ ∧
     1 ≤ (VarIntResult.mk 0 5).bytesRead ∧ (VarIntResult.mk 0 5).bytesRead ≤ 5) ∧
    (0 + 5 ≤ fiveContBytes.length ∧ (readVarInt fiveContBytes 0).isSome = true) :=
  ⟨⟨by decide, C4_amended.1 fiveContBytes 0 ⟨0, 5⟩ (by decide)⟩,
   ⟨by decide, C4_amended.2 fiveContBytes 0 (by decide)⟩⟩

/-- C5 counterexample: the admission step allows a blacklisted address
(the blacklist is never consulted there), and taking the scenario times
literally — first admit at wall-clock 0 — the second admit at 200 ms is
also allowed, because a zero table stamp is falsy in the source and so is
treated as no entry. -/
theorem C5_counterexample :
    (admitCheck blacklistedState ⟨9, 9, 9, 9⟩ 500).1 = .allow ∧
    ⟨9, 9, 9, 9⟩ ∈ blacklistedState.ipBlacklist ∧
    (admitCheck (admitCheck emptyState ⟨198, 51, 100, 5⟩ 0).2
        ⟨198, 51, 100, 240⟩ 200).1 = .allow := by
  refine ⟨by decide, by decide, by decide⟩

/-- C5 (amended): the admission step allows exactly when the rate-limiter
table holds no nonzero entry for the address's /24 newer than 1000 ms —
the blacklist plays no part — and on allow it stamps the subnet with the
current time; the allow-defer-allow scenario holds at offsets 0, 200 ms
and 1100 ms from any nonzero base time. -/
theorem C5_amended :
    (∀ st ip now, ((admitCheck st ip now).1 = .allow) ↔
        isRateLimited st.rateLimiter ip now = false) ∧
    (∀ st ip now, (admitCheck st ip now).1 = .allow →
        lookupA (admitCheck st ip now).2.rateLimiter (subnetOf ip) = some now) ∧
    (∀ t0 : Nat, 0 < t0 →
      (admitCheck emptyState ⟨198, 51, 100, 5⟩ t0).1 = .allow ∧
      (admitCheck (admitCheck emptyState ⟨198, 51, 100, 5⟩ t0).2
          ⟨198, 51, 100, 240⟩ (t0 + 200)).1 = .defer ∧
      (admitCheck ((admitCheck (admitCheck emptyState ⟨198, 51, 100, 5⟩ t0).2
          ⟨198, 51, 100, 240⟩ (t0 + 200)).2) ⟨198, 51, 100, 7⟩ (t0 + 1100)).1 = .allow) :=
  ⟨admitCheck_allow_iff, admitCheck_allow_stamps, admitCheck_scenario⟩

/-- C5 witness: the amended scenario instantiated at base time 1, plus the
allow-iff direction read off at a concrete admitted address. -/
theorem C5_amended_witness :
    0 < 1 ∧
    ((admitCheck emptyState ⟨198, 51, 100, 5⟩ 1).1 = .allow ∧
     (admitCheck (admitCheck emptyState ⟨198, 51, 100, 5⟩ 1).2
         ⟨198, 51, 100, 240⟩ (1 + 200)).1 = .defer ∧
     (admitCheck ((admitCheck (admitCheck emptyState ⟨198, 51, 100, 5⟩ 1).2
         ⟨198, 51, 100, 240⟩ (1 + 200)).2) ⟨198, 51, 100, 7⟩ (1 + 1100)).1 = .allow) :=
  ⟨by omega, C5_amended.2.2 1 (by omega)⟩

/-- C6: no statistics-mutating function of the v2 scanner ever writes
avgResponseTime — the periodic updateStatistics tick, the per-discovery
updateServerStats and the per-scan counter step all pass it through
unchanged, so it stays at its initial 0 — while the claimed EMA rule
(implemented only in the v1 scanmc.js updateAverageResponseTime) would,
for instance, move an average of 0 to 20 on a 200 ms sample. -/
theorem C6_code_bug :
    (∀ s now, (updateStatistics s now).avgResponseTime = s.avgResponseTime) ∧
    (∀ s info, (updateServerStats s info).avgResponseTime = s.avgResponseTime) ∧
    (∀ s found, (scanSingleServerStep s found).avgResponseTime = s.avgResponseTime) ∧
    updateAverageResponseTime 0 200 = 20 := by
  refine ⟨fun s now => rfl, fun s info => (updateServerStats_scalars s info).2.2, ?_, ?_⟩
  · intro s found
    cases found with
    | none => rfl
    | some info =>
        have := (updateServerStats_scalars { s with totalScanned := s.totalScanned + 1 } info).2.2
        simpa [scanSingleServerStep] using this
  · norm_num [updateAverageResponseTime]

/-- C7 counterexample: a session that scans one address, finds a server
there and then resets statistics ends with totalFound 1 and totalScanned
0 — resetStats preserves totalFound while zeroing totalScanned, so the
claimed invariant fails in exactly the reachable states the claim
includes. -/
theorem C7_counterexample :
    ¬ ((runSession c7events).totalFound ≤ (runSession c7events).totalScanned) := by
  decide

/-- C7 (amended): totalFound stays at or below totalScanned in every state
reached from a fresh session by completed scans alone; resetStats and the
startup statistics load preserve totalFound while totalScanned is or
returns to zero, and so can break the inequality. -/
theorem C7_amended (evts : List SessionEvent)
    (h : ∀ e ∈ evts, isScanEvent e = true) :
    (runSession evts).totalFound ≤ (runSession evts).totalScanned :=
  sessionStep_scanOnly evts h initialStats (Nat.le_refl 0)

/-- C7 witness: the amended statement instantiated on a two-scan trace
with one discovery. -/
theorem C7_amended_witness :
    (∀ e ∈ c7scanEvents, isScanEvent e = true) ∧
    (runSession c7scanEvents).totalFound ≤ (runSession c7scanEvents).totalScanned :=
  ⟨by decide, C7_amended c7scanEvents (by decide)⟩

/-- C8 counterexample: with 9.9.9.9 blacklisted, thirty-three successive
draws of that valid public address leave the rejection sampler still
spinning — it does not give up after 32 attempts and return an address,
contradicting the claimed bound. -/
theorem C8_counterexample :
    32 ≤ (List.replicate 33 (⟨9, 9, 9, 9⟩ : IPv4)).length ∧
    generateRandomPublicIP blacklistedState (List.replicate 33 ⟨9, 9, 9, 9⟩) = none := by
  refine ⟨by decide, by decide⟩

/-- C8 (amended): the rejection-sampling loop has no attempt cap at all —
it returns the first drawn address that passes the public, unseen and
unblacklisted tests, and yields nothing exactly when no draw in the
stream passes (the source loop then keeps spinning). -/
theorem C8_amended (st : ScannerState) (draws : List IPv4) :
    generateRandomPublicIP st draws = draws.find? (fun d => acceptIP st d) := by
  induction draws with
  | nil => rfl
  | cons d ds ih =>
      rw [generateRandomPublicIP, List.find?]
      by_cases hacc : acceptIP st d = true
      · simp [hacc]
      · simp [Bool.not_eq_true] at hacc
        simp [hacc, ih]

/-- C9: resetStats zeroes the volatile counters (totalScanned,
duplicatesSkipped, errorsEncountered, timeoutCount, connectionErrors and
the per-session tally maps), reseeds startTime to the current time, and
leaves totalFound, serversByVersion and serversByCountry exactly as they
were. -/
theorem C9_resetStats (s : Stats) (now : Nat) :
    (resetStats s now).totalScanned = 0 ∧
    (resetStats s now).duplicatesSkipped = 0 ∧
    (resetStats s now).errorsEncountered = 0 ∧
    (resetStats s now).timeoutCount = 0 ∧
    (resetStats s now).connectionErrors = 0 ∧
    (resetStats s now).serversByPlayerCount = [] ∧
    (resetStats s now).popularMOTDs = [] ∧
    (resetStats s now).startTime = some now ∧
    (resetStats s now).totalFound = s.totalFound ∧
    (resetStats s now).serversByVersion = s.serversByVersion ∧
    (resetStats s now).serversByCountry = s.serversByCountry :=
  ⟨rfl, rfl, rfl, rfl, rfl, rfl, rfl, rfl, rfl, rfl, rfl⟩

/-- C10: starting from any statistics whose popularMOTDs map satisfies the
invariant — every key longer than five characters, every tally at most
10 — any sequence of discoveries keeps it satisfied: a discovery with an
MOTD of five or fewer characters is never tallied, and a tally at 10 is
never pushed further. -/
theorem C10_popularMOTDs (ss : List EnrichedServer) (s : Stats)
    (h : motdInv s.popularMOTDs = true) :
    motdInv ((ss.foldl updateServerStats s).popularMOTDs) = true := by
  induction ss generalizing s with
  | nil => exact h
  | cons info rest ih =>
      rw [List.foldl_cons]
      exact ih _ (motdInv_updateServerStats s info h)

/-- C10 witness: the invariant instantiated on the fresh statistics record
and a single discovery. -/
theorem C10_popularMOTDs_witness :
    motdInv initialStats.popularMOTDs = true ∧
    motdInv (([exampleServer].foldl updateServerStats initialStats).popularMOTDs) = true :=
  ⟨by decide, C10_popularMOTDs [exampleServer] initialStats (by decide)⟩
